import Mathlib

/-!
Shallow embedding of the Step 4 feasibility calculation and the Step 5
visualization colouring of `src/CargoFitApp.py` (OnFly Air Cargo Fit Tool).

Numeric user inputs and spreadsheet cells are modelled as rationals (`ℚ`);
a spreadsheet cell that is missing or unparseable (pandas `NaN`, tested in
the source with `pd.isnull` / `pd.notnull`) is modelled as `none : Option ℚ`.
A Python runtime error is modelled with `Except PyError`.
-/

/-- Python runtime error raised by the script. The one relevant here is
`NameError`: a name was read that has no binding in the script environment.
Line 198 of `src/CargoFitApp.py` reads the name `seats_removed`, which is
never assigned anywhere in the file. -/
inductive PyError where
  | nameError
deriving DecidableEq

/-- Binding of the name `seats_removed` in the environment of
`src/CargoFitApp.py` at the point line 198 executes: no assignment to
`seats_removed` occurs anywhere in the file, so the name is unbound. -/
def seats_removed_env : Option ℚ := none

/-- Modelled from the spec: the seat-removal user input
(`SeatRemoval.seatsRemoved`), whose input widget is missing from
`src/CargoFitApp.py` — line 198 reads the name `seats_removed` but the file
never assigns it. The spec defines it as a user-supplied integer with
`0 ≤ seatsRemoved ≤ AircraftSpec.removableSeatCount`; claims about the
seat-removal arithmetic take it as this explicit record. -/
structure SeatRemoval where
  seatsRemoved : ℚ
deriving DecidableEq

/-- Line 196: `total_cargo_weight = part_weight + (num_mechanics * avg_mech_weight) + tool_weight`. -/
def total_cargo_weight (part_weight num_mechanics avg_mech_weight tool_weight : ℚ) : ℚ :=
  part_weight + num_mechanics * avg_mech_weight + tool_weight

/-- Lines 192–194: each mechanics-related input is the widget value when the
`mechanics_travel` checkbox is ticked, and `0` otherwise
(`num_mechanics`, `avg_mech_weight`, `tool_weight`). -/
def mechanics_inputs (mechanics_travel : Bool) (num_mechanics avg_mech_weight tool_weight : ℚ) :
    ℚ × ℚ × ℚ :=
  if mechanics_travel then (num_mechanics, avg_mech_weight, tool_weight) else (0, 0, 0)

/-- Line 198: `additional_payload = seats_removed * seat_weight if seats_removed > 0 and pd.notnull(seat_weight) else 0`,
with the unbound `seats_removed` operand supplied as a `SeatRemoval` record
(see `SeatRemoval`). -/
def additional_payload (sr : SeatRemoval) (seat_weight : Option ℚ) : ℚ :=
  if 0 < sr.seatsRemoved ∧ seat_weight.isSome then sr.seatsRemoved * seat_weight.getD 0 else 0

/-- Line 200: `available_payload = max_payload + additional_payload if pd.notnull(max_payload) else float(nan)`;
the `NaN` outcome is `none`. -/
def available_payload (max_payload : Option ℚ) (additional : ℚ) : Option ℚ :=
  match max_payload with
  | some mp => some (mp + additional)
  | none => none

/-- Lines 204–210: the payload check compares `total_cargo_weight <= available_payload`
when `available_payload` is not null, and otherwise reports that the check
cannot be performed (`none`). -/
def payload_ok (total : ℚ) (avail : Option ℚ) : Option Bool :=
  match avail with
  | some a => some (decide (total ≤ a))
  | none => none

/-- Lines 212–218: `fits_door` is initialised to `False`; when both door
dimensions are non-null it becomes
`(part_length <= door_w and part_width <= door_h) or (part_length <= door_h and part_width <= door_w)`,
and when either is null it keeps its initial value `False`. -/
def fits_door (door_w door_h : Option ℚ) (part_length part_width : ℚ) : Bool :=
  match door_w, door_h with
  | some dw, some dh =>
      decide ((part_length ≤ dw ∧ part_width ≤ dh) ∨ (part_length ≤ dh ∧ part_width ≤ dw))
  | _, _ => false

/-- What the door-fit block (lines 214–223) displays: whether the
"Door dimensions are missing. Cannot verify door fit." warning is shown,
the value of the `fits_door` variable, and whether the
"The cargo does not fit through the aircraft door." error is shown
(lines 220–223 show it exactly when `fits_door` is false). -/
structure DoorFitDisplay where
  warned_missing : Bool
  fits_door : Bool
  shows_does_not_fit : Bool
deriving DecidableEq

/-- Lines 214–223 as a whole: compute `fits_door`, warn when a door dimension
is null, then display fit/no-fit according to the boolean `fits_door`. -/
def door_fit_step (door_w door_h : Option ℚ) (part_length part_width : ℚ) : DoorFitDisplay :=
  let f := fits_door door_w door_h part_length part_width
  ⟨door_w.isNone || door_h.isNone, f, !f⟩

/-- Lines 225–232: `cabin_fit` is initialised to `False`; when all three cabin
dimensions are non-null it becomes
`part_length <= cab_l and part_width <= cab_w and part_height <= cab_h`,
and otherwise keeps its initial value `False`. -/
def cabin_fit (cab_l cab_w cab_h : Option ℚ) (part_length part_width part_height : ℚ) : Bool :=
  match cab_l, cab_w, cab_h with
  | some L, some W, some H =>
      decide (part_length ≤ L ∧ part_width ≤ W ∧ part_height ≤ H)
  | _, _, _ => false

/-- Line 254 of `create_cargo_visualization`:
`color = "green" if (cargo_length <= door_w and cargo_width <= door_h) else "red"`. -/
def cargo_color (door_w door_h cargo_length cargo_width : ℚ) : String :=
  if cargo_length ≤ door_w ∧ cargo_width ≤ door_h then "green" else "red"

/-- The aircraft fields the Step 4 block reads from the selected spreadsheet
row; each may be missing (`none`). -/
structure AircraftSpec where
  doorWidth : Option ℚ
  doorHeight : Option ℚ
  cabinLength : Option ℚ
  cabinWidth : Option ℚ
  cabinHeight : Option ℚ
  maxPayload : Option ℚ
  seatWeight : Option ℚ
deriving DecidableEq

/-- The values Step 4 computes when it completes. -/
structure Step4Result where
  requiredPayload : ℚ
  availablePayload : Option ℚ
  payloadOk : Option Bool
  doorDisplay : DoorFitDisplay
  cabinFit : Bool
deriving DecidableEq

/-- The Step 4 block (lines 190–237) run in order: the required-payload sum
(line 196), then line 198, which reads the name `seats_removed` from the
script environment and raises `NameError` when it is unbound; when a binding
exists the block continues with the payload, door-fit and cabin-fit checks. -/
def evaluateStep4 (env_seats_removed : Option ℚ) (ac : AircraftSpec)
    (part_length part_width part_height part_weight : ℚ)
    (num_mechanics avg_mech_weight tool_weight : ℚ) : Except PyError Step4Result :=
  let total := total_cargo_weight part_weight num_mechanics avg_mech_weight tool_weight
  match env_seats_removed with
  | none => Except.error PyError.nameError
  | some s =>
      let ap := additional_payload ⟨s⟩ ac.seatWeight
      let avail := available_payload ac.maxPayload ap
      Except.ok
        ⟨total, avail, payload_ok total avail,
         door_fit_step ac.doorWidth ac.doorHeight part_length part_width,
         cabin_fit ac.cabinLength ac.cabinWidth ac.cabinHeight
           part_length part_width part_height⟩

/-- C1: refuted — the Step 4 feasibility evaluation of `src/CargoFitApp.py`
raises `NameError` on every input in the documented domain, because line 198
reads the name `seats_removed`, which the file never assigns. It is not a
total function over its declared domain. -/
theorem step4_always_raises_nameError (ac : AircraftSpec)
    (l w h wt nm amw tw : ℚ) :
    evaluateStep4 seats_removed_env ac l w h wt nm amw tw
      = Except.error PyError.nameError := rfl

/-- C2: for known door dimensions, the door-fit verdict is true iff the cargo
footprint clears the opening in either axis-aligned orientation, with
inclusive comparisons; in particular a footprint exactly equal to the opening
fits. -/
theorem fits_door_iff (dw dh l w : ℚ) :
    (fits_door (some dw) (some dh) l w = true ↔
      (l ≤ dw ∧ w ≤ dh) ∨ (l ≤ dh ∧ w ≤ dw)) ∧
    fits_door (some dw) (some dh) dw dh = true := by
  constructor
  · simp [fits_door]
  · simp [fits_door]

/-- C3: for known cabin dimensions, the cabin-fit verdict is true iff each of
length, width and height is at most the corresponding cabin dimension — no
rotation is attempted. -/
theorem cabin_fit_iff (L W H l w h : ℚ) :
    cabin_fit (some L) (some W) (some H) l w h = true ↔
      (l ≤ L ∧ w ≤ W ∧ h ≤ H) := by
  simp [cabin_fit]

/-- C4: refuted at a concrete input — with door width missing (and door
height 50, cargo 1×1), the code shows the "cannot verify" warning but the
`fits_door` variable is the boolean `false` and the
"The cargo does not fit through the aircraft door." error is displayed: the
verdict is not a distinct third `unknown` value. -/
theorem door_fit_missing_reports_not_fit :
    door_fit_step none (some 50) 1 1 = ⟨true, false, true⟩ := rfl

/-- C5: when `maxPayload` is missing, `available_payload` is `none` and the
payload check is `none` (cannot be performed), regardless of the seat-removal
input, the seat weight and the required payload — including required
payload 0. -/
theorem available_payload_unknown_max (s : ℚ) (sw : Option ℚ) (total : ℚ) :
    available_payload none (additional_payload ⟨s⟩ sw) = none ∧
    payload_ok total (available_payload none (additional_payload ⟨s⟩ sw)) = none ∧
    payload_ok 0 (available_payload none (additional_payload ⟨s⟩ sw)) = none :=
  ⟨rfl, rfl, rfl⟩

/-- C6: the required payload equals `part_weight + num_mechanics * avg_mech_weight + tool_weight`;
when the mechanics checkbox is off every extras operand is 0, and with zero
mechanics and zero tool weight the sum is exactly the item weight. -/
theorem total_cargo_weight_additive (pw nm amw tw : ℚ) :
    total_cargo_weight pw nm amw tw = pw + nm * amw + tw ∧
    mechanics_inputs false nm amw tw = (0, 0, 0) ∧
    total_cargo_weight pw 0 amw 0 = pw := by
  refine ⟨rfl, rfl, ?_⟩
  unfold total_cargo_weight
  ring

/-- C7: with `maxPayload` known and `seatsRemoved > 0`, a missing seat weight
contributes 0 — the available payload is `maxPayload` unchanged, not
unknown — while a known seat weight contributes `seatsRemoved * seatWeight`. -/
theorem available_payload_seat_removal (mp s sw : ℚ) (hs : 0 < s) :
    available_payload (some mp) (additional_payload ⟨s⟩ none) = some mp ∧
    available_payload (some mp) (additional_payload ⟨s⟩ (some sw))
      = some (mp + s * sw) := by
  unfold available_payload additional_payload
  simp [hs]

/-- Witness for C7 at maxPayload 500, seatsRemoved 2, seatWeight 20
(spec Scenario D: available payload 540). -/
theorem available_payload_seat_removal_witness :
    available_payload (some 500) (additional_payload ⟨2⟩ none) = some 500 ∧
    available_payload (some 500) (additional_payload ⟨2⟩ (some 20))
      = some (500 + 2 * 20) :=
  available_payload_seat_removal 500 2 20 (by norm_num)

/-- C8: with known door dimensions, the door-fit verdict is invariant under
swapping the cargo's length and width. -/
theorem fits_door_swap_invariant (dw dh l w : ℚ) :
    fits_door (some dw) (some dh) w l = fits_door (some dw) (some dh) l w := by
  unfold fits_door
  exact decide_eq_decide.mpr (by tauto)

/-- C9: the cabin check is not symmetric under swapping length and width —
cabin 100×60×50 with item 65×55×40 fits, but the swapped item 55×65×40 does
not. -/
theorem cabin_fit_swap_asymmetric :
    cabin_fit (some 100) (some 60) (some 50) 65 55 40
        ≠ cabin_fit (some 100) (some 60) (some 50) 55 65 40 ∧
    cabin_fit (some 100) (some 60) (some 50) 65 55 40 = true ∧
    cabin_fit (some 100) (some 60) (some 50) 55 65 40 = false := by
  refine ⟨?_, ?_, ?_⟩ <;> simp [cabin_fit] <;> norm_num

/-- C10: the visualization draws the cargo outline green iff the un-rotated
orientation fits (`cargo_length ≤ door_w ∧ cargo_width ≤ door_h`); for a
door 60×50 and cargo 45×55, which passes the door check only after rotation,
the outline is red while the door-fit verdict is true. -/
theorem cargo_color_green_iff :
    (∀ dw dh l w : ℚ, cargo_color dw dh l w = "green" ↔ (l ≤ dw ∧ w ≤ dh)) ∧
    cargo_color 60 50 45 55 = "red" ∧
    fits_door (some 60) (some 50) 45 55 = true := by
  refine ⟨?_, ?_, ?_⟩
  · intro dw dh l w
    unfold cargo_color
    split_ifs with h
    · exact iff_of_true rfl h
    · exact iff_of_false (by decide) h
  · unfold cargo_color
    rw [if_neg]
    norm_num
  · simp [fits_door]
    norm_num
